import Mathlib

/-!
Verification of the rendering/animation/export engine of `DefaultTheme.vue`
(cover-magic). Numeric values are embedded as exact rationals; canvas drawing
calls are embedded as the data they would draw (positions, sizes, fill styles).
All definitions are translated from `src/src/components/DefaultTheme.vue`.
-/

namespace CoverMagic

/-- Animation state triple, from the `AnimationState` interface
(DefaultTheme.vue lines 213-217). -/
structure AnimationState where
  value : ℚ
  target : ℚ
  velocity : ℚ
deriving Repr, DecidableEq

/-- `createAnimationState` (lines 220-224); every call site uses the
default initial value `0`. -/
def createAnimationState : AnimationState :=
  { value := 0, target := 0, velocity := 0 }

/-- Spring stiffness constant (line 242). -/
def SPRING_STIFFNESS : ℚ := 200

/-- Spring damping constant (line 243). -/
def SPRING_DAMPING : ℚ := 20

/-- Spring mass constant (line 244). -/
def SPRING_MASS : ℚ := 1

/-- Spring precision threshold 0.01 (line 245). -/
def SPRING_PRECISION : ℚ := 1/100

/-- `updateSpringAnimation` (lines 251-281): mutates the state in place and
returns whether the animation is still active; embedded as returning the new
state paired with that Boolean. -/
def updateSpringAnimation (state : AnimationState) (dt : ℚ) :
    AnimationState × Bool :=
  let displacement := state.target - state.value
  if |displacement| < SPRING_PRECISION ∧ |state.velocity| < SPRING_PRECISION then
    ({ state with value := state.target, velocity := 0 }, false)
  else
    let springForce := SPRING_STIFFNESS * displacement
    let dampingForce := -SPRING_DAMPING * state.velocity
    let force := springForce + dampingForce
    let acceleration := force / SPRING_MASS
    let velocity := state.velocity + acceleration * dt
    let value := state.value + velocity * dt
    ({ state with value := value, velocity := velocity }, true)

/-- The settled test of `updateSpringAnimation` (line 256). -/
def settledAt (state : AnimationState) : Prop :=
  |state.target - state.value| < SPRING_PRECISION ∧
    |state.velocity| < SPRING_PRECISION

instance (state : AnimationState) : Decidable (settledAt state) := by
  unfold settledAt; infer_instance

/-- The time step computed by the animation loop (line 325):
`Math.min((currentTime - lastTime) / 1000, 0.1)`, with the elapsed
wall-clock time in milliseconds as input. -/
def loopDeltaTime (elapsedMs : ℚ) : ℚ :=
  min (elapsedMs / 1000) (1/10)

/-- One animation-loop tick of a single spring state at the fixed time step
1/60 s (the claim's example rate), keeping only the state component. -/
def springStep (s : AnimationState) : AnimationState :=
  (updateSpringAnimation s (1/60)).1

/-- `n` iterations of the fixed-step spring tick. -/
def springIterate (s : AnimationState) (n : ℕ) : AnimationState :=
  springStep^[n] s

/-- Quadratic Lyapunov form of the fixed-step spring map: with
`d = target - value` and `v = velocity`, the non-settled step maps
`(d, v)` to `((17/18)d - (1/90)v, (10/3)d + (2/3)v)`, and this form is
multiplied exactly by the squared spectral radius 2/3 at each such step. -/
def springEnergy (s : AnimationState) : ℚ :=
  600 * (s.target - s.value)^2 - 50 * (s.target - s.value) * s.velocity +
    2 * s.velocity^2

/-! ## Layout resolver -/

/-- Canvas `textAlign` values used by the render passes. -/
inductive TextAlign where
  | left
  | center
  | right
deriving Repr, DecidableEq

/-- A resolved text anchor: the alignment set on the context together with
the x coordinate passed to `fillText`. -/
structure TextAnchor where
  align : TextAlign
  pos : ℚ
deriving Repr, DecidableEq

/-- Horizontal layout of title and watermark text. Embeds the identical
computations of `renderFrame` (title lines 635-650, watermark lines 725-740)
and `exportImage` (title lines 1083-1098, watermark lines 1185-1200). -/
def textLayoutX (percent textWidth canvasWidth : ℚ) : TextAnchor :=
  if percent ≤ 0 then
    { align := TextAlign.left, pos := 0 }
  else if percent ≥ 100 then
    { align := TextAlign.right, pos := canvasWidth }
  else
    let minX := textWidth / 2
    let maxX := canvasWidth - textWidth / 2
    { align := TextAlign.center, pos := minX + (maxX - minX) * (percent / 100) }

/-- Vertical layout of title and watermark text (always drawn with the
`middle` baseline). Embeds `renderFrame` lines 653-669 / 743-759 and the
identical export-pass computations (lines 1101-1117 / 1203-1219). -/
def textLayoutY (percent textHeight canvasHeight : ℚ) : ℚ :=
  let half := textHeight / 2
  if percent ≤ 0 then half
  else if percent ≥ 100 then canvasHeight - half
  else
    let minY := half
    let maxY := canvasHeight - half
    minY + (maxY - minY) * (percent / 100)

/-- Center of the drawn text along x, given the anchor produced by
`textLayoutX` and the measured text width: canvas `left` alignment puts the
anchor at the left edge, `right` at the right edge, `center` at the middle. -/
def anchorCenterX (a : TextAnchor) (textWidth : ℚ) : ℚ :=
  match a.align with
  | TextAlign.left => a.pos + textWidth / 2
  | TextAlign.center => a.pos
  | TextAlign.right => a.pos - textWidth / 2

/-- Icon center layout along one axis. Embeds `renderFrame` lines 578-603
(the x and y computations are identical with the respective canvas extent). -/
def iconLayout (percent iconSize canvasExtent : ℚ) : ℚ :=
  let halfIconSize := iconSize / 2
  if percent ≤ 0 then halfIconSize
  else if percent ≥ 100 then canvasExtent - halfIconSize
  else
    let minX := halfIconSize
    let maxX := canvasExtent - halfIconSize
    minX + (maxX - minX) * (percent / 100)

/-! ## Configuration data model (from `src/lib/type` usage in the component) -/

/-- Percent-based position, fields `x` and `y`. -/
structure Position where
  x : ℚ
  y : ℚ
deriving Repr, DecidableEq

/-- Title text effects (`effects.bold`, `effects.italic`,
`effects.textShadow`). -/
structure TitleEffects where
  bold : Bool
  italic : Bool
  textShadow : ℚ
deriving Repr, DecidableEq

/-- Title configuration as read by the component. -/
structure TitleConfig where
  text : String
  color : String
  font : String
  size : ℚ
  position : Position
  effects : TitleEffects
deriving Repr, DecidableEq

/-- Watermark text effects (`effects.bold`, `effects.italic`,
`effects.uppercase`). -/
structure WatermarkEffects where
  bold : Bool
  italic : Bool
  uppercase : Bool
deriving Repr, DecidableEq

/-- Watermark configuration as read by the component. -/
structure WatermarkConfig where
  text : String
  color : String
  font : String
  size : ℚ
  position : Position
  opacity : ℚ
  effects : WatermarkEffects
deriving Repr, DecidableEq

/-- Icon configuration as read by the component. -/
structure IconConfig where
  svg : String
  size : ℚ
  position : Position
  shadowColor : String
  shadowSize : ℚ
deriving Repr, DecidableEq

/-- Modelled from the spec: the `BACKGROUND_TYPE` constants live in
`src/lib/constant`, which is not part of the sources; the spec gives
`type ∈ color, gradient, image`. -/
inductive BackgroundType where
  | color
  | gradient
  | image
deriving Repr, DecidableEq

/-- Background configuration as read by the component (the gradient and
image payloads are not needed by the claims below). -/
structure BackgroundConfig where
  type : BackgroundType
  color : String
  opacity : ℚ
  blur : ℚ
deriving Repr, DecidableEq

/-- Icon x center in `exportImage` (lines 980-997): the icon size is first
scaled by `exportCanvas.width / canvas.width` and the percent is resolved
against the export canvas width. -/
def exportIconPosX (icon : IconConfig) (previewWidth exportWidth : ℚ) : ℚ :=
  let iconSize := icon.size * (exportWidth / previewWidth)
  let halfIconSize := iconSize / 2
  if icon.position.x ≤ 0 then halfIconSize
  else if icon.position.x ≥ 100 then exportWidth - halfIconSize
  else
    let minX := halfIconSize
    let maxX := exportWidth - halfIconSize
    minX + (maxX - minX) * (icon.position.x / 100)

/-- Icon y center in `exportImage` (lines 999-1011), against the export
canvas height with the width-scaled icon size. -/
def exportIconPosY (icon : IconConfig) (previewWidth exportWidth exportHeight : ℚ) : ℚ :=
  let iconSize := icon.size * (exportWidth / previewWidth)
  let halfIconSize := iconSize / 2
  if icon.position.y ≤ 0 then halfIconSize
  else if icon.position.y ≥ 100 then exportHeight - halfIconSize
  else
    let minY := halfIconSize
    let maxY := exportHeight - halfIconSize
    minY + (maxY - minY) * (icon.position.y / 100)

/-! ## Animation target updates -/

/-- The table of animated properties (lines 227-239). -/
structure AnimationStates where
  titleSize : AnimationState
  titleX : AnimationState
  titleY : AnimationState
  watermarkSize : AnimationState
  watermarkX : AnimationState
  watermarkY : AnimationState
  iconSize : AnimationState
  iconX : AnimationState
  iconY : AnimationState
  watermarkOpacity : AnimationState
  backgroundBlur : AnimationState
deriving Repr, DecidableEq

/-- Initial animation-state table: every property is
`createAnimationState` (value = target = velocity = 0). -/
def initialAnimationStates : AnimationStates :=
  { titleSize := createAnimationState
    titleX := createAnimationState
    titleY := createAnimationState
    watermarkSize := createAnimationState
    watermarkX := createAnimationState
    watermarkY := createAnimationState
    iconSize := createAnimationState
    iconX := createAnimationState
    iconY := createAnimationState
    watermarkOpacity := createAnimationState
    backgroundBlur := createAnimationState }

/-- The component's props: the four configuration objects. -/
structure Props where
  backgroundConfig : BackgroundConfig
  iconConfig : IconConfig
  titleConfig : TitleConfig
  watermarkConfig : WatermarkConfig
deriving Repr, DecidableEq

/-- Snap one state's value to its target (body of the `forEach` on
lines 306-309). -/
def snapToTarget (s : AnimationState) : AnimationState :=
  { s with value := s.target }

/-- `updateAnimationTargets` (lines 284-314): writes every target from the
current props, then — whenever `titleSize.value === 0` — snaps every
property's value to its target. (The `startAnimationLoop` call has no effect
on the state table itself.) -/
def updateAnimationTargets (props : Props) (a : AnimationStates) :
    AnimationStates :=
  let a1 : AnimationStates :=
    { titleSize := { a.titleSize with target := props.titleConfig.size }
      titleX := { a.titleX with target := props.titleConfig.position.x }
      titleY := { a.titleY with target := props.titleConfig.position.y }
      watermarkSize := { a.watermarkSize with target := props.watermarkConfig.size }
      watermarkX := { a.watermarkX with target := props.watermarkConfig.position.x }
      watermarkY := { a.watermarkY with target := props.watermarkConfig.position.y }
      watermarkOpacity := { a.watermarkOpacity with target := props.watermarkConfig.opacity }
      iconSize := { a.iconSize with target := props.iconConfig.size }
      iconX := { a.iconX with target := props.iconConfig.position.x }
      iconY := { a.iconY with target := props.iconConfig.position.y }
      backgroundBlur := { a.backgroundBlur with target := props.backgroundConfig.blur } }
  if a1.titleSize.value = 0 then
    { titleSize := snapToTarget a1.titleSize
      titleX := snapToTarget a1.titleX
      titleY := snapToTarget a1.titleY
      watermarkSize := snapToTarget a1.watermarkSize
      watermarkX := snapToTarget a1.watermarkX
      watermarkY := snapToTarget a1.watermarkY
      iconSize := snapToTarget a1.iconSize
      iconX := snapToTarget a1.iconX
      iconY := snapToTarget a1.iconY
      watermarkOpacity := snapToTarget a1.watermarkOpacity
      backgroundBlur := snapToTarget a1.backgroundBlur }
  else a1

/-! ## Size quantities of the two render passes (C1) -/

/-- Icon draw size in the preview pass: `renderFrame` draws the icon at the
animated `currentIconSize`, whose settled value is `props.iconConfig.size`
(lines 392, 572). -/
def previewIconSize (icon : IconConfig) : ℚ := icon.size

/-- Icon draw size in the export pass (line 980): scaled by
`exportCanvas.width / canvas.width`. -/
def exportIconSize (icon : IconConfig) (pw ew : ℚ) : ℚ :=
  icon.size * (ew / pw)

/-- Icon shadow blur in the preview pass (`drawShadow`, lines 127-132):
set only when `shadowSize > 0`. -/
def previewIconShadowBlur (icon : IconConfig) : Option ℚ :=
  if icon.shadowSize > 0 then some icon.shadowSize else none

/-- Icon shadow blur in the export pass (lines 1021-1026): the blur is
scaled by the width ratio. -/
def exportIconShadowBlur (icon : IconConfig) (pw ew : ℚ) : Option ℚ :=
  if icon.shadowSize > 0 then some (icon.shadowSize * (ew / pw)) else none

/-- Title font size in the preview pass (line 616). -/
def previewTitleFontSize (t : TitleConfig) : ℚ := t.size

/-- Title font size in the export pass (line 1068). -/
def exportTitleFontSize (t : TitleConfig) (pw ew : ℚ) : ℚ :=
  t.size * (ew / pw)

/-- Watermark font size in the preview pass (line 716). -/
def previewWatermarkFontSize (w : WatermarkConfig) : ℚ := w.size

/-- Watermark font size in the export pass (line 1161). -/
def exportWatermarkFontSize (w : WatermarkConfig) (pw ew : ℚ) : ℚ :=
  w.size * (ew / pw)

/-- Title text-shadow (blur, offsetX, offsetY) in the preview pass
(lines 619-626): blur is twice the configured size, offsets equal it. -/
def previewTitleShadow (t : TitleConfig) : Option (ℚ × ℚ × ℚ) :=
  if t.effects.textShadow > 0 then
    some (t.effects.textShadow * 2, t.effects.textShadow, t.effects.textShadow)
  else none

/-- Title text-shadow in the export pass (lines 1125-1132): the configured
size is scaled by the width ratio before the same blur/offset formulas. -/
def exportTitleShadow (t : TitleConfig) (pw ew : ℚ) : Option (ℚ × ℚ × ℚ) :=
  if t.effects.textShadow > 0 then
    let shadowSize := t.effects.textShadow * (ew / pw)
    some (shadowSize * 2, shadowSize, shadowSize)
  else none

/-- Title bold-simulation stroke `lineWidth` in the preview pass
(lines 683, 692): applied only when bold with font "Maple Mono CN", at
`size * 2 * 0.01`. -/
def previewTitleStrokeWidth (t : TitleConfig) : Option ℚ :=
  if t.effects.bold ∧ t.font = "Maple Mono CN" then
    some (t.size * 2 * (1/100))
  else none

/-- Title bold-simulation stroke `lineWidth` in the export pass
(lines 1142, 1151): `titleSize * 0.01` with the already-scaled
`titleSize`. -/
def exportTitleStrokeWidth (t : TitleConfig) (pw ew : ℚ) : Option ℚ :=
  if t.effects.bold ∧ t.font = "Maple Mono CN" then
    some ((t.size * (ew / pw)) * (1/100))
  else none

/-- Watermark bold-simulation stroke `lineWidth` in the preview pass
(lines 773, 782): `size * 0.01`. -/
def previewWatermarkStrokeWidth (w : WatermarkConfig) : Option ℚ :=
  if w.effects.bold ∧ w.font = "Maple Mono CN" then
    some (w.size * (1/100))
  else none

/-- Watermark bold-simulation stroke `lineWidth` in the export pass
(lines 1233, 1242): `watermarkSize * 0.01` with the scaled size. -/
def exportWatermarkStrokeWidth (w : WatermarkConfig) (pw ew : ℚ) : Option ℚ :=
  if w.effects.bold ∧ w.font = "Maple Mono CN" then
    some ((w.size * (ew / pw)) * (1/100))
  else none

/-! ## Background color fill (C8) -/

/-- Hex digit value, as used by `parseInt(·, 16)`. -/
def hexDigitVal (c : Char) : Option ℕ :=
  if '0' ≤ c ∧ c ≤ '9' then some (c.toNat - '0'.toNat)
  else if 'a' ≤ c ∧ c ≤ 'f' then some (c.toNat - 'a'.toNat + 10)
  else if 'A' ≤ c ∧ c ≤ 'F' then some (c.toNat - 'A'.toNat + 10)
  else none

/-- `parseInt(color.slice(i, i+2), 16)`: the value of the two hex digits at
positions `i` and `i+1`; `none` stands for JS `NaN` on a non-hex slice. -/
def hexByteAt (s : String) (i : ℕ) : Option ℕ :=
  match s.data.drop i with
  | c1 :: c2 :: _ =>
    match hexDigitVal c1, hexDigitVal c2 with
    | some h1, some h2 => some (16 * h1 + h2)
    | _, _ => none
  | _ => none

/-- The rgba fill style string `rgba(r, g, b, a)`, embedded as its channel
values. -/
structure RGBA where
  r : ℕ
  g : ℕ
  b : ℕ
  a : ℚ
deriving Repr, DecidableEq

/-- A `fillRect` call with its style: the rectangle from `(x, y)` of size
`w × h` filled with `style`. -/
structure FillRect where
  x : ℚ
  y : ℚ
  w : ℚ
  h : ℚ
  style : RGBA
deriving Repr, DecidableEq

/-- Color-background fill of `renderFrame` (lines 432-443): parses the hex
channel pairs and fills the whole canvas with
`rgba(r, g, b, opacity/100)`. -/
def renderFrameColorFill (bg : BackgroundConfig) (w h : ℚ) : Option FillRect :=
  if bg.type = BackgroundType.color then
    let opacity := bg.opacity / 100
    match hexByteAt bg.color 1, hexByteAt bg.color 3, hexByteAt bg.color 5 with
    | some r, some g, some b =>
      some { x := 0, y := 0, w := w, h := h,
             style := { r := r, g := g, b := b, a := opacity } }
    | _, _, _ => none
  else none

/-- Color-background fill of `exportImage` (lines 841-852): the identical
computation against the export canvas dimensions. -/
def exportColorFill (bg : BackgroundConfig) (w h : ℚ) : Option FillRect :=
  if bg.type = BackgroundType.color then
    let opacity := bg.opacity / 100
    match hexByteAt bg.color 1, hexByteAt bg.color 3, hexByteAt bg.color 5 with
    | some r, some g, some b =>
      some { x := 0, y := 0, w := w, h := h,
             style := { r := r, g := g, b := b, a := opacity } }
    | _, _, _ => none
  else none

/-! ## Export file name (C10) -/

/-- Export configuration, from the `ExportConfig` usage in `exportImage`
(`src/lib/type` itself is not among the sources; the fields are exactly the
ones the component reads). `currentRandomFileName` may be absent, hence an
`Option`. -/
structure ExportConfig where
  width : ℚ
  height : ℚ
  format : String
  quality : ℚ
  fileName : String
  useRandomFileName : Bool
  currentRandomFileName : Option String
deriving Repr, DecidableEq

/-- JS truthiness of the possibly-absent string
`exportConfig.currentRandomFileName`: false for an absent value and for the
empty string. -/
def truthyString : Option String → Bool
  | none => false
  | some s => !s.isEmpty

/-- `getFinalFileName` (lines 1251-1255):
`useRandomFileName && currentRandomFileName ? currentRandomFileName : fileName`. -/
def getFinalFileName (exportConfig : ExportConfig) : String :=
  if exportConfig.useRandomFileName &&
      truthyString exportConfig.currentRandomFileName then
    exportConfig.currentRandomFileName.getD ""
  else exportConfig.fileName

/-- `outputFileName` (line 1257). -/
def outputFileName (exportConfig : ExportConfig) : String :=
  getFinalFileName exportConfig ++ "." ++ exportConfig.format

/-- A concrete first configuration (title size 0, title x 50). -/
def propsFirstUpdate : Props :=
  ⟨⟨BackgroundType.color, "#FFFFFF", 100, 0⟩,
   ⟨"<svg/>", 200, ⟨50, 50⟩, "#000000", 0⟩,
   ⟨"Hello", "#000000", "Arial", 0, ⟨50, 60⟩, ⟨false, false, 0⟩⟩,
   ⟨"wm", "#000000", "Arial", 30, ⟨10, 90⟩, 80, ⟨false, false, false⟩⟩⟩

/-- A concrete second configuration (title size 24, title x 20). -/
def propsSecondUpdate : Props :=
  ⟨⟨BackgroundType.color, "#FFFFFF", 100, 0⟩,
   ⟨"<svg/>", 200, ⟨50, 50⟩, "#000000", 0⟩,
   ⟨"Hello", "#000000", "Arial", 24, ⟨20, 60⟩, ⟨false, false, 0⟩⟩,
   ⟨"wm", "#000000", "Arial", 30, ⟨10, 90⟩, 80, ⟨false, false, false⟩⟩⟩

/-- A concrete animation-state table whose title size is away from 0. -/
def exampleStates : AnimationStates :=
  ⟨⟨7, 7, 0⟩, ⟨1, 1, 0⟩, ⟨1, 1, 0⟩, ⟨1, 1, 0⟩, ⟨1, 1, 0⟩, ⟨1, 1, 0⟩,
   ⟨1, 1, 0⟩, ⟨1, 1, 0⟩, ⟨1, 1, 0⟩, ⟨1, 1, 0⟩, ⟨1, 1, 0⟩⟩

/-! ## Theorems -/

/-- C5: the spring animator is idempotent at rest: when `|target - value| < 0.01`
and `|velocity| < 0.01`, one tick snaps `value := target`, `velocity := 0` and
returns `false` (settled), and every further tick from the resulting state
returns the same state unchanged with `false` again: the settled state is a
fixed point of the update. -/
theorem spring_idempotent_at_rest (s : AnimationState) (dt : ℚ)
    (hd : |s.target - s.value| < 1/100) (hv : |s.velocity| < 1/100) :
    updateSpringAnimation s dt =
      ({ s with value := s.target, velocity := 0 }, false) ∧
    ∀ dt2 : ℚ,
      updateSpringAnimation { s with value := s.target, velocity := 0 } dt2 =
        ({ s with value := s.target, velocity := 0 }, false) := by
  constructor
  · rw [updateSpringAnimation, if_pos]
    exact ⟨by simpa [SPRING_PRECISION] using hd, by simpa [SPRING_PRECISION] using hv⟩
  · intro dt2
    rw [updateSpringAnimation, if_pos]
    constructor <;> simp [SPRING_PRECISION]

/-- Witness for C5 at a concrete settled state. -/
theorem spring_idempotent_at_rest_witness :
    updateSpringAnimation ⟨(5 : ℚ), 5 + 1/200, 1/200⟩ (1/60) =
      (⟨5 + 1/200, 5 + 1/200, 0⟩, false) := by
  have h := spring_idempotent_at_rest ⟨(5 : ℚ), 5 + 1/200, 1/200⟩ (1/60)
    (by norm_num [abs_of_nonneg]) (by norm_num [abs_of_nonneg])
  exact h.1

/-- C6: every non-settled tick updates the state exactly by
`velocity += ((200*(target - value) - 20*velocity)/1)*dt` followed by
`value += velocity*dt` (with the updated velocity), and reports still-active;
and the animation loop's dt is the elapsed wall-clock time in seconds capped
at 0.1. -/
theorem spring_active_step (s : AnimationState) (dt e : ℚ)
    (h : ¬ (|s.target - s.value| < 1/100 ∧ |s.velocity| < 1/100)) :
    updateSpringAnimation s dt =
      ({ s with
          velocity := s.velocity + ((200*(s.target - s.value) - 20*s.velocity)/1)*dt,
          value := s.value +
            (s.velocity + ((200*(s.target - s.value) - 20*s.velocity)/1)*dt)*dt },
        true) ∧
    (e / 1000 ≤ 1/10 → loopDeltaTime e = e / 1000) ∧
    (1/10 ≤ e / 1000 → loopDeltaTime e = 1/10) := by
  refine ⟨?_, fun hle => min_eq_left hle, fun hge => min_eq_right hge⟩
  rw [updateSpringAnimation, if_neg (by simpa [SPRING_PRECISION] using h)]
  simp only [Prod.mk.injEq, AnimationState.mk.injEq, SPRING_STIFFNESS,
    SPRING_DAMPING, SPRING_MASS]
  exact ⟨⟨by ring, trivial, by ring⟩, by trivial⟩

/-- Witness for C6 at a concrete non-settled state and time step. -/
theorem spring_active_step_witness :
    updateSpringAnimation ⟨(0 : ℚ), 1, 0⟩ (1/60) =
      (⟨(0 : ℚ) + ((0 : ℚ) + ((200*((1 : ℚ) - 0) - 20*0)/1)*(1/60))*(1/60),
        1, (0 : ℚ) + ((200*((1 : ℚ) - 0) - 20*0)/1)*(1/60)⟩, true) ∧
    loopDeltaTime 16 = 16 / 1000 := by
  have h := spring_active_step ⟨(0 : ℚ), 1, 0⟩ (1/60) 16
    (by norm_num [abs_of_nonneg])
  exact ⟨h.1, h.2.1 (by norm_num)⟩

/-- C9: a spring tick never changes the `target` field, whether it reports
settled or still-active. -/
theorem spring_preserves_target (s : AnimationState) (dt : ℚ) :
    (updateSpringAnimation s dt).1.target = s.target := by
  rw [updateSpringAnimation]
  split <;> rfl

/-- The non-settled branch of `updateSpringAnimation`, with its let-bindings
expanded. -/
theorem updateSpringAnimation_of_not_settled (s : AnimationState) (dt : ℚ)
    (h : ¬ (|s.target - s.value| < SPRING_PRECISION ∧
            |s.velocity| < SPRING_PRECISION)) :
    updateSpringAnimation s dt =
      ({ s with
          value := s.value +
            (s.velocity +
              (SPRING_STIFFNESS * (s.target - s.value) +
                -SPRING_DAMPING * s.velocity) / SPRING_MASS * dt) * dt,
          velocity := s.velocity +
            (SPRING_STIFFNESS * (s.target - s.value) +
              -SPRING_DAMPING * s.velocity) / SPRING_MASS * dt }, true) := by
  rw [updateSpringAnimation, if_neg h]

theorem springEnergy_nonneg (s : AnimationState) : 0 ≤ springEnergy s := by
  have h1 := sq_nonneg (2 * s.velocity - 25 * (s.target - s.value))
  have h2 := sq_nonneg (s.target - s.value)
  unfold springEnergy
  nlinarith

theorem springEnergy_step (s : AnimationState) (h : ¬ settledAt s) :
    springEnergy (springStep s) = 2/3 * springEnergy s := by
  have h' : ¬ (|s.target - s.value| < SPRING_PRECISION ∧
      |s.velocity| < SPRING_PRECISION) := h
  rw [springStep, updateSpringAnimation_of_not_settled s (1/60) h']
  simp only [springEnergy, SPRING_STIFFNESS, SPRING_DAMPING, SPRING_MASS]
  ring

theorem springEnergy_small_settled (s : AnimationState)
    (h : springEnergy s < 23/240000) : settledAt s := by
  have h1 := sq_nonneg (2 * s.velocity - 25 * (s.target - s.value))
  have h2 := sq_nonneg (24 * (s.target - s.value) - s.velocity)
  rw [springEnergy] at h
  constructor
  · rw [SPRING_PRECISION, abs_lt]
    constructor <;> nlinarith [sq_nonneg (s.target - s.value + 1/100),
      sq_nonneg (s.target - s.value - 1/100)]
  · rw [SPRING_PRECISION, abs_lt]
    constructor <;> nlinarith [sq_nonneg (s.velocity + 1/100),
      sq_nonneg (s.velocity - 1/100)]

/-- C7: the spring animator converges: for every state (every rational target,
value and velocity), iterating the spring update at the fixed time step
dt = 1/60 (stiffness 200, damping 20, mass 1) reaches the settled region
`|target - value| < 0.01 ∧ |velocity| < 0.01` in finitely many steps. -/
theorem spring_converges (s : AnimationState) :
    ∃ n : ℕ, settledAt (springIterate s n) := by
  have key : ∀ n : ℕ, (∃ k, k ≤ n ∧ settledAt (springIterate s k)) ∨
      springEnergy (springIterate s n) = (2/3)^n * springEnergy s := by
    intro n
    induction n with
    | zero => right; simp [springIterate]
    | succ m ih =>
      rcases ih with ⟨k, hk, hs⟩ | hQ
      · exact Or.inl ⟨k, hk.trans (Nat.le_succ m), hs⟩
      · by_cases hset : settledAt (springIterate s m)
        · exact Or.inl ⟨m, Nat.le_succ m, hset⟩
        · right
          have hit : springIterate s (m+1) = springStep (springIterate s m) := by
            simp [springIterate, Function.iterate_succ_apply']
          rw [hit, springEnergy_step _ hset, hQ]
          ring
  obtain ⟨n, hn⟩ : ∃ n : ℕ, (2/3 : ℚ)^n < (23/240000) / (springEnergy s + 1) := by
    have hpos : (0:ℚ) < springEnergy s + 1 := by
      have := springEnergy_nonneg s; linarith
    exact exists_pow_lt_of_lt_one (by positivity) (by norm_num)
  rcases key n with ⟨k, _, hs⟩ | hQ
  · exact ⟨k, hs⟩
  · refine ⟨n, springEnergy_small_settled _ ?_⟩
    rw [hQ]
    have hq0 := springEnergy_nonneg s
    have hpow : (0:ℚ) ≤ (2/3)^n := by positivity
    have hpos : (0:ℚ) < springEnergy s + 1 := by linarith
    have h2 : (2/3 : ℚ)^n * (springEnergy s + 1) < 23/240000 := by
      calc (2/3 : ℚ)^n * (springEnergy s + 1)
          < ((23/240000) / (springEnergy s + 1)) * (springEnergy s + 1) :=
            mul_lt_mul_of_pos_right hn hpos
        _ = 23/240000 := by field_simp; ring
    nlinarith

/-- C2: resolved center coordinates: for percent `p ≤ 0` the center equals
half the content extent (measured text width horizontally, nominal font size
vertically, icon size for the icon); for `p ≥ 100` it equals the container
extent minus half the content extent; and for `p = 50` it equals exactly half
the container extent, independent of the content extent. -/
theorem layout_edge_and_center (p e c : ℚ) :
    (p ≤ 0 →
      anchorCenterX (textLayoutX p e c) e = e / 2 ∧
      textLayoutY p e c = e / 2 ∧
      iconLayout p e c = e / 2) ∧
    (100 ≤ p →
      anchorCenterX (textLayoutX p e c) e = c - e / 2 ∧
      textLayoutY p e c = c - e / 2 ∧
      iconLayout p e c = c - e / 2) ∧
    (p = 50 →
      anchorCenterX (textLayoutX p e c) e = c / 2 ∧
      textLayoutY p e c = c / 2 ∧
      iconLayout p e c = c / 2) := by
  refine ⟨fun h0 => ?_, fun h100 => ?_, fun h50 => ?_⟩
  · rw [textLayoutX, if_pos h0, textLayoutY, if_pos h0, iconLayout, if_pos h0]
    exact ⟨by rw [anchorCenterX]; ring, rfl, rfl⟩
  · have hn0 : ¬ p ≤ 0 := by linarith
    rw [textLayoutX, if_neg hn0, if_pos (by exact h100), textLayoutY,
      if_neg hn0, if_pos (by exact h100), iconLayout, if_neg hn0,
      if_pos (by exact h100)]
    exact ⟨by rw [anchorCenterX], rfl, rfl⟩
  · subst h50
    have hn0 : ¬ (50 : ℚ) ≤ 0 := by norm_num
    have hn100 : ¬ (50 : ℚ) ≥ 100 := by norm_num
    rw [textLayoutX, if_neg hn0, if_neg hn100, textLayoutY, if_neg hn0,
      if_neg hn100, iconLayout, if_neg hn0, if_neg hn100]
    refine ⟨?_, ?_, ?_⟩
    · rw [anchorCenterX]; ring
    · ring
    · ring

/-- Witness for C2 at concrete inputs for each of the three zones. -/
theorem layout_edge_and_center_witness :
    anchorCenterX (textLayoutX (-3) 10 1920) 10 = 5 ∧
    anchorCenterX (textLayoutX 120 10 1920) 10 = 1915 ∧
    iconLayout 50 10 1920 = 960 := by
  refine ⟨?_, ?_, ?_⟩
  · exact (((layout_edge_and_center (-3) 10 1920).1 (by norm_num)).1).trans
      (by norm_num)
  · exact (((layout_edge_and_center 120 10 1920).2.1 (by norm_num)).1).trans
      (by norm_num)
  · exact ((layout_edge_and_center 50 10 1920).2.2 rfl).2.2.trans (by norm_num)

/-- C4: icon layout in both passes maps percent `p` to a pixel center:
`p ≤ 0` gives half the icon size, `p ≥ 100` gives the canvas extent minus
half the icon size, and `0 < p < 100` linearly interpolates between those two
bounds with factor `p/100`; and the export pass recomputes positions from the
same percent values against the export canvas's own dimensions (it is the
same resolver applied to the scaled size and the export extent, not a scaling
of preview pixel positions). -/
theorem icon_layout_spec (p sz c : ℚ) (icon : IconConfig)
    (pw ew eh : ℚ) :
    (p ≤ 0 → iconLayout p sz c = sz / 2) ∧
    (100 ≤ p → iconLayout p sz c = c - sz / 2) ∧
    (0 < p → p < 100 →
      iconLayout p sz c =
        (1 - p / 100) * (sz / 2) + (p / 100) * (c - sz / 2)) ∧
    exportIconPosX icon pw ew =
      iconLayout icon.position.x (icon.size * (ew / pw)) ew ∧
    exportIconPosY icon pw ew eh =
      iconLayout icon.position.y (icon.size * (ew / pw)) eh := by
  refine ⟨fun h0 => ?_, fun h100 => ?_, fun hl hr => ?_, ?_, ?_⟩
  · rw [iconLayout, if_pos h0]
  · rw [iconLayout, if_neg (by linarith), if_pos (by exact h100)]
  · rw [iconLayout, if_neg (by linarith), if_neg (by simpa using not_le.mpr hr)]
    ring
  · rw [exportIconPosX, iconLayout]
  · rw [exportIconPosY, iconLayout]

/-- Witness for C4 at concrete inputs for each zone and a concrete icon
configuration. -/
theorem icon_layout_spec_witness :
    iconLayout (-2) 300 1920 = 150 ∧
    iconLayout 100 300 1920 = 1770 ∧
    iconLayout 25 300 1080 = (1 - 25/100) * 150 + (25/100) * (1080 - 150) ∧
    exportIconPosX ⟨"svg", 300, ⟨25, 40⟩, "#000000", 0⟩ 1920 3840 =
      iconLayout 25 (300 * (3840/1920)) 3840 := by
  have h := icon_layout_spec (-2) 300 1920 ⟨"svg", 300, ⟨25, 40⟩, "#000000", 0⟩
    1920 3840 2160
  have h2 := icon_layout_spec 100 300 1920 ⟨"svg", 300, ⟨25, 40⟩, "#000000", 0⟩
    1920 3840 2160
  have h3 := icon_layout_spec 25 300 1080 ⟨"svg", 300, ⟨25, 40⟩, "#000000", 0⟩
    1920 3840 2160
  refine ⟨(h.1 (by norm_num)).trans (by norm_num),
    (h2.2.1 (by norm_num)).trans (by norm_num),
    (h3.2.2.1 (by norm_num) (by norm_num)).trans (by norm_num), ?_⟩
  exact h3.2.2.2.1

/-- C3 counterexample: the first update below carries a non-zero
configuration (title x = 50, among others) and snaps `titleX.value` to 50;
the claim then requires every later configuration update to leave current
values in place, but because the title size is still 0 the second update
snaps `titleX.value` from 50 to 20 instead of animating. -/
theorem update_targets_counterexample :
    (updateAnimationTargets propsFirstUpdate initialAnimationStates).titleX.value
        = 50 ∧
    (updateAnimationTargets propsSecondUpdate
        (updateAnimationTargets propsFirstUpdate initialAnimationStates)).titleX.value
        = 20 ∧
    (20 : ℚ) ≠ 50 := by
  refine ⟨?_, ?_, by norm_num⟩ <;>
    norm_num [updateAnimationTargets, propsFirstUpdate, propsSecondUpdate,
      initialAnimationStates, createAnimationState, snapToTarget]

/-- C3 (amended): a configuration update snaps every animated property's
value directly to its new target precisely when the `titleSize` state's
current value is 0 at the time of the update — which holds at creation, not
only on the first non-zero update — and otherwise leaves every current value
in place; targets are always rewritten from the props. -/
theorem update_targets_characterization (props : Props) (a : AnimationStates) :
    (a.titleSize.value = 0 →
      updateAnimationTargets props a =
        ⟨⟨props.titleConfig.size, props.titleConfig.size, a.titleSize.velocity⟩,
         ⟨props.titleConfig.position.x, props.titleConfig.position.x, a.titleX.velocity⟩,
         ⟨props.titleConfig.position.y, props.titleConfig.position.y, a.titleY.velocity⟩,
         ⟨props.watermarkConfig.size, props.watermarkConfig.size, a.watermarkSize.velocity⟩,
         ⟨props.watermarkConfig.position.x, props.watermarkConfig.position.x, a.watermarkX.velocity⟩,
         ⟨props.watermarkConfig.position.y, props.watermarkConfig.position.y, a.watermarkY.velocity⟩,
         ⟨props.iconConfig.size, props.iconConfig.size, a.iconSize.velocity⟩,
         ⟨props.iconConfig.position.x, props.iconConfig.position.x, a.iconX.velocity⟩,
         ⟨props.iconConfig.position.y, props.iconConfig.position.y, a.iconY.velocity⟩,
         ⟨props.watermarkConfig.opacity, props.watermarkConfig.opacity, a.watermarkOpacity.velocity⟩,
         ⟨props.backgroundConfig.blur, props.backgroundConfig.blur, a.backgroundBlur.velocity⟩⟩) ∧
    (a.titleSize.value ≠ 0 →
      updateAnimationTargets props a =
        ⟨⟨a.titleSize.value, props.titleConfig.size, a.titleSize.velocity⟩,
         ⟨a.titleX.value, props.titleConfig.position.x, a.titleX.velocity⟩,
         ⟨a.titleY.value, props.titleConfig.position.y, a.titleY.velocity⟩,
         ⟨a.watermarkSize.value, props.watermarkConfig.size, a.watermarkSize.velocity⟩,
         ⟨a.watermarkX.value, props.watermarkConfig.position.x, a.watermarkX.velocity⟩,
         ⟨a.watermarkY.value, props.watermarkConfig.position.y, a.watermarkY.velocity⟩,
         ⟨a.iconSize.value, props.iconConfig.size, a.iconSize.velocity⟩,
         ⟨a.iconX.value, props.iconConfig.position.x, a.iconX.velocity⟩,
         ⟨a.iconY.value, props.iconConfig.position.y, a.iconY.velocity⟩,
         ⟨a.watermarkOpacity.value, props.watermarkConfig.opacity, a.watermarkOpacity.velocity⟩,
         ⟨a.backgroundBlur.value, props.backgroundConfig.blur, a.backgroundBlur.velocity⟩⟩) := by
  constructor
  · intro h
    simp [updateAnimationTargets, snapToTarget, h]
  · intro h
    simp [updateAnimationTargets, snapToTarget, h]

/-- Witness for C3 (amended) at concrete inputs for both branches. -/
theorem update_targets_characterization_witness :
    (updateAnimationTargets propsSecondUpdate initialAnimationStates).titleX.value
        = 20 ∧
    (updateAnimationTargets propsSecondUpdate exampleStates).titleX.value = 1 := by
  have h1 :=
    (update_targets_characterization propsSecondUpdate initialAnimationStates).1 rfl
  have h2 :=
    (update_targets_characterization propsSecondUpdate exampleStates).2
      (by norm_num [exampleStates])
  rw [h1, h2]
  exact ⟨rfl, rfl⟩

/-- C1 counterexample: title font "Maple Mono CN", bold, size 100, preview
width 1920, export width 3840 (2×): the export-pass title stroke lineWidth
is 2, the same as the preview-pass lineWidth 2 — not 2× it (which would
be 4). -/
theorem export_scale_counterexample :
    previewTitleStrokeWidth
      ⟨"Hello", "#000000", "Maple Mono CN", 100, ⟨50, 50⟩, ⟨true, false, 0⟩⟩
      = some 2 ∧
    exportTitleStrokeWidth
      ⟨"Hello", "#000000", "Maple Mono CN", 100, ⟨50, 50⟩, ⟨true, false, 0⟩⟩
      1920 3840 = some 2 ∧
    exportTitleStrokeWidth
      ⟨"Hello", "#000000", "Maple Mono CN", 100, ⟨50, 50⟩, ⟨true, false, 0⟩⟩
      1920 3840
      ≠ Option.map (fun q => 2 * q)
        (previewTitleStrokeWidth
          ⟨"Hello", "#000000", "Maple Mono CN", 100, ⟨50, 50⟩, ⟨true, false, 0⟩⟩) := by
  refine ⟨?_, ?_, ?_⟩ <;>
    norm_num [previewTitleStrokeWidth, exportTitleStrokeWidth]

/-- C1 (amended): at export width 2× the preview width, every linear size
quantity — icon size, icon shadow blur, title/watermark font size,
title text-shadow blur and offsets, and the watermark bold-simulation stroke
width — scales by exactly 2×; the title bold-simulation stroke lineWidth is
the exception: the export pass uses the same lineWidth as the preview pass
(preview strokes at size×2×0.01, export at scaledSize×0.01). -/
theorem export_scale_two (t : TitleConfig) (w : WatermarkConfig)
    (icon : IconConfig) (pw : ℚ) (hpw : pw ≠ 0) :
    exportIconSize icon pw (2 * pw) = 2 * previewIconSize icon ∧
    exportIconShadowBlur icon pw (2 * pw) =
      Option.map (fun q => 2 * q) (previewIconShadowBlur icon) ∧
    exportTitleFontSize t pw (2 * pw) = 2 * previewTitleFontSize t ∧
    exportTitleShadow t pw (2 * pw) =
      Option.map (fun q => (2 * q.1, 2 * q.2.1, 2 * q.2.2))
        (previewTitleShadow t) ∧
    exportWatermarkFontSize w pw (2 * pw) = 2 * previewWatermarkFontSize w ∧
    exportWatermarkStrokeWidth w pw (2 * pw) =
      Option.map (fun q => 2 * q) (previewWatermarkStrokeWidth w) ∧
    exportTitleStrokeWidth t pw (2 * pw) = previewTitleStrokeWidth t := by
  have h2 : (2 * pw) / pw = 2 := mul_div_cancel_right₀ 2 hpw
  refine ⟨?_, ?_, ?_, ?_, ?_, ?_, ?_⟩
  · rw [exportIconSize, previewIconSize, h2]; ring
  · rw [exportIconShadowBlur, previewIconShadowBlur]
    split_ifs <;> simp [h2] <;> ring
  · rw [exportTitleFontSize, previewTitleFontSize, h2]; ring
  · rw [exportTitleShadow, previewTitleShadow]
    split_ifs <;> simp [h2] <;> constructor <;> ring
  · rw [exportWatermarkFontSize, previewWatermarkFontSize, h2]; ring
  · rw [exportWatermarkStrokeWidth, previewWatermarkStrokeWidth]
    split_ifs <;> simp [h2] <;> ring
  · rw [exportTitleStrokeWidth, previewTitleStrokeWidth]
    split_ifs <;> simp [h2] <;> ring

/-- Witness for C1 (amended) at a concrete configuration and widths. -/
theorem export_scale_two_witness :
    exportTitleFontSize
      ⟨"Hello", "#000000", "Maple Mono CN", 100, ⟨50, 50⟩, ⟨true, false, 5⟩⟩
      1920 (2 * 1920) = 2 * 100 ∧
    exportTitleStrokeWidth
      ⟨"Hello", "#000000", "Maple Mono CN", 100, ⟨50, 50⟩, ⟨true, false, 5⟩⟩
      1920 (2 * 1920) =
      previewTitleStrokeWidth
        ⟨"Hello", "#000000", "Maple Mono CN", 100, ⟨50, 50⟩, ⟨true, false, 5⟩⟩ := by
  have h := export_scale_two
    ⟨"Hello", "#000000", "Maple Mono CN", 100, ⟨50, 50⟩, ⟨true, false, 5⟩⟩
    ⟨"wm", "#000000", "Arial", 30, ⟨10, 90⟩, 80, ⟨false, false, false⟩⟩
    ⟨"<svg/>", 200, ⟨50, 50⟩, "#000000", 2⟩
    1920 (by norm_num)
  exact ⟨(h.2.2.1).trans (by norm_num [previewTitleFontSize]), h.2.2.2.2.2.2⟩

/-- C8: rendering a color background with hex color string `#RRGGBB` and
opacity `o` fills the rectangle `(0, 0, w, h)` — the entire surface — with
`rgba(r, g, b, o/100)` where `r`, `g`, `b` are the base-16 parsed channel
pairs, and the preview and export paths compute identical fills. -/
theorem color_fill_spec (bg : BackgroundConfig) (w h : ℚ) (r g b : ℕ)
    (htype : bg.type = BackgroundType.color)
    (hr : hexByteAt bg.color 1 = some r)
    (hg : hexByteAt bg.color 3 = some g)
    (hb : hexByteAt bg.color 5 = some b) :
    renderFrameColorFill bg w h =
      some ⟨0, 0, w, h, ⟨r, g, b, bg.opacity / 100⟩⟩ ∧
    exportColorFill bg w h = renderFrameColorFill bg w h := by
  constructor
  · simp [renderFrameColorFill, htype, hr, hg, hb]
  · simp [renderFrameColorFill, exportColorFill, htype, hr, hg, hb]

/-- Witness for C8: `#FF0000` at opacity 50 on a 1920×1080 surface fills the
whole surface with `rgba(255, 0, 0, 0.5)` in both paths. -/
theorem color_fill_spec_witness :
    renderFrameColorFill ⟨BackgroundType.color, "#FF0000", 50, 0⟩ 1920 1080 =
      some ⟨0, 0, 1920, 1080, ⟨255, 0, 0, 1/2⟩⟩ ∧
    exportColorFill ⟨BackgroundType.color, "#FF0000", 50, 0⟩ 1920 1080 =
      renderFrameColorFill ⟨BackgroundType.color, "#FF0000", 50, 0⟩ 1920 1080 := by
  have h := color_fill_spec ⟨BackgroundType.color, "#FF0000", 50, 0⟩
    1920 1080 255 0 0 rfl (by decide) (by decide) (by decide)
  exact ⟨h.1.trans (by norm_num), h.2⟩

/-- C10: the exported file name uses the random name exactly when
`useRandomFileName` is true and `currentRandomFileName` is present and
non-empty; in every other case — `useRandomFileName` false, or the random
name absent or empty — the literal `fileName` is used; and the name is always
suffixed with `.` followed by the configured format. -/
theorem final_file_name_spec (ec : ExportConfig) :
    (ec.useRandomFileName = true →
      ∀ s, ec.currentRandomFileName = some s → s ≠ "" →
        outputFileName ec = s ++ "." ++ ec.format) ∧
    (ec.useRandomFileName = false →
      outputFileName ec = ec.fileName ++ "." ++ ec.format) ∧
    (ec.currentRandomFileName = none →
      outputFileName ec = ec.fileName ++ "." ++ ec.format) ∧
    (ec.currentRandomFileName = some "" →
      outputFileName ec = ec.fileName ++ "." ++ ec.format) := by
  refine ⟨fun hu s hs hne => ?_, fun hu => ?_, fun hn => ?_, fun he => ?_⟩
  · have ht : truthyString ec.currentRandomFileName = true := by
      have hie : s.isEmpty = false :=
        Bool.eq_false_iff.mpr (fun hb => hne ((String.isEmpty_iff s).1 hb))
      rw [hs]
      simp [truthyString, hie]
    rw [outputFileName, getFinalFileName, if_pos (by rw [hu, ht]; rfl), hs]
    rfl
  · rw [outputFileName, getFinalFileName, if_neg (by rw [hu]; simp)]
  · have ht : truthyString ec.currentRandomFileName = false := by
      rw [hn]; rfl
    rw [outputFileName, getFinalFileName, if_neg (by rw [ht]; simp)]
  · have ht : truthyString ec.currentRandomFileName = false := by
      rw [he]
      simp [truthyString, String.isEmpty_iff]
    rw [outputFileName, getFinalFileName, if_neg (by rw [ht]; simp)]

/-- Witness for C10 at concrete export configurations for all four cases. -/
theorem final_file_name_spec_witness :
    outputFileName ⟨1920, 1080, "png", 1, "cover", true, some "rnd123"⟩ =
      "rnd123" ++ "." ++ "png" ∧
    outputFileName ⟨1920, 1080, "jpeg", 1, "cover", false, some "rnd123"⟩ =
      "cover" ++ "." ++ "jpeg" ∧
    outputFileName ⟨1920, 1080, "webp", 1, "cover", true, none⟩ =
      "cover" ++ "." ++ "webp" ∧
    outputFileName ⟨1920, 1080, "png", 1, "cover", true, some ""⟩ =
      "cover" ++ "." ++ "png" := by
  refine ⟨?_, ?_, ?_, ?_⟩
  · exact (final_file_name_spec _).1 rfl "rnd123" rfl (by simp)
  · exact (final_file_name_spec _).2.1 rfl
  · exact (final_file_name_spec _).2.2.1 rfl
  · exact (final_file_name_spec _).2.2.2 rfl

end CoverMagic
